import Mathlib

/-!
Shallow embedding of the citronella demo GraphQL server
(`src/unnamed/part_000`, the comments-enabled variant of the server
file): an in-memory users/posts/comments store, a token codec
(modelling the JWT sign/verify calls), the request-context builder, and
the query and mutation resolvers.  Machine dates are modelled as
natural-number timestamps; the JWT wire format is modelled abstractly
as a `Token` value carrying the signed payload, the signing secret and
the issue/expiry instants (a malformed header string is a separate
constructor), since the resolvers only ever interact with tokens
through `jwt.sign` and `jwt.verify`.
-/

namespace Citronella

/-- A stored user record: `interface User` in the source. -/
structure User where
  id : Nat
  email : String
  password : String
  name : String
deriving Repr, DecidableEq

/-- A stored post record: `interface Post` in the source. -/
structure Post where
  id : Nat
  title : String
  content : String
  authorId : Nat
deriving Repr, DecidableEq

/-- A stored comment record: `interface Comment` in the source.
`createdAt` is a timestamp (the source stores a `Date`). -/
structure Comment where
  id : Nat
  text : String
  postId : Nat
  userId : Nat
  createdAt : Nat
deriving Repr, DecidableEq

/-- The sanitized user view (the source type `Omit<User, password>`)
returned to clients: id, email and name, never the password. -/
structure PublicUser where
  id : Nat
  email : String
  name : String
deriving Repr, DecidableEq

/-- Per-request context: `interface Context`, an optional sanitized user. -/
structure Context where
  user : Option PublicUser
deriving Repr, DecidableEq

/-- The anonymous context (the empty object returned by the source
context builder): no authenticated user. -/
def anonymousContext : Context := ⟨none⟩

/-- Abstract model of a JWT credential.  A `signed` token records the
payload (the user id, as in `interface JWTPayload`), the secret it was
signed with, and its issue and expiry instants; `malformed` stands for
any header string that does not parse as a token at all. -/
inductive Token where
  | signed (userId : Nat) (secret : String) (iat : Nat) (exp : Nat)
  | malformed (raw : String)
deriving Repr, DecidableEq

/-- The static shared secret `your-secret-key` hardcoded in the source. -/
def theSecret : String := "your-secret-key"

/-- Model of `jwt.sign` with a fixed `24h` expiry option: a signed
token over the user id expiring 24 hours (86400 seconds) after `now`. -/
def tokenSign (userId : Nat) (secret : String) (now : Nat) : Token :=
  .signed userId secret now (now + 86400)

/-- Model of `jwt.verify` at instant `now`: succeeds with the userId of
the payload exactly when the token is well formed, was signed with the
same secret, and has not expired; every failure (wrong secret, expiry,
malformed input) is `none` — in the source each of these throws, and
every caller catches. -/
def tokenVerify (t : Token) (secret : String) (now : Nat) : Option Nat :=
  match t with
  | .signed uid s _ e => if s = secret ∧ now < e then some uid else none
  | .malformed _ => none

/-- Strip a `User` to its sanitized view (the object literals built in
the resolvers, holding id, email and name only). -/
def sanitize (u : User) : PublicUser := ⟨u.id, u.email, u.name⟩

/-- Result of a successful login: `interface AuthPayload`. -/
structure AuthPayload where
  token : Token
  user : PublicUser
deriving Repr, DecidableEq

/-- The whole in-memory store: the `users`, `posts` and `comments`
arrays of the source. -/
structure Store where
  users : List User
  posts : List Post
  comments : List Comment
deriving Repr, DecidableEq

/-- The seeded `users` array. -/
def seededUsers : List User :=
  [ ⟨1, "john@example.com", "password123", "John Doe"⟩,
    ⟨2, "Jane@example.com", "password456", "Jane Smith"⟩,
    ⟨3, "admin@company.com", "admin123", "Admin User"⟩ ]

/-- The seeded `posts` array. -/
def seededPosts : List Post :=
  [ ⟨1, "Getting Started with GraphQL", "GraphQL is a query language for APIs and a runtime for executing those queries.", 1⟩,
    ⟨2, "Understanding React Hooks", "Hooks allow you to use state and other React features without writing a class.", 2⟩,
    ⟨3, "Admin Announcement: New Features", "We are excited to announce several new features coming to our platform.", 3⟩,
    ⟨4, "Performance Optimization Tips", "Here are some key strategies for optimizing your application performance.", 1⟩,
    ⟨5, "Database Best Practices", "Learn about indexing, query optimization, and connection pooling.", 2⟩,
    ⟨6, "Security Update", "Important security patches have been applied to the system.", 3⟩,
    ⟨7, "TypeScript Migration Guide", "A step-by-step guide to migrating your JavaScript project to TypeScript.", 1⟩,
    ⟨8, "Testing Strategies", "Comprehensive testing ensures your application works as expected.", 2⟩ ]

/-- The credentials lookup used by login: find the first user whose
email AND password both match by exact, case-sensitive string equality
(the seeded bug: no lowercasing of either side). -/
def findUserByCredentials (us : List User) (email password : String) : Option User :=
  us.find? (fun u => u.email == email && u.password == password)

/-- Find a user by id (the `users.find` scan on ids). -/
def findUserById (us : List User) (uid : Nat) : Option User :=
  us.find? (fun u => u.id == uid)

/-- The comments scan of the `Post.comments` resolver: one linear
filter of the comments array on postId. -/
def commentsForPost (cs : List Comment) (pid : Nat) : List Comment :=
  cs.filter (fun c => c.postId == pid)

/-- The body of the `Post.commentCount` resolver: its own independent
linear filter of the comments array, then the length. -/
def commentCountForPost (cs : List Comment) (pid : Nat) : Nat :=
  (cs.filter (fun c => c.postId == pid)).length

/-- The `Mutation.login` resolver: find by exact credentials; on no
match throw `Invalid email or password`; on a match sign a 24-hour
token over the user id with the static secret and return it together
with the sanitized user. -/
def login (us : List User) (email password : String) (now : Nat) :
    Except String AuthPayload :=
  match findUserByCredentials us email password with
  | none => .error "Invalid email or password"
  | some u => .ok ⟨tokenSign u.id theSecret now, sanitize u⟩

/-- The `Mutation.addComment` resolver as a state transformer on the
store.  Anonymous context: throw `Error adding comment`.  Empty text
(the falsy-string check of the source, true exactly for the empty
string — no trimming): throw `Comment text is required`.  Otherwise
build the comment with id `comments.length + 1`, the given text and
postId (no existence check on postId), the user id taken from the
context, and the current time, and push it onto the comments array.
The second component is the store after the call. -/
def addComment (ctx : Context) (postId : Nat) (text : String) (now : Nat)
    (s : Store) : Except String Comment × Store :=
  match ctx.user with
  | none => (.error "Error adding comment", s)
  | some pu =>
    if text = "" then
      (.error "Comment text is required", s)
    else
      let c : Comment := ⟨s.comments.length + 1, text, postId, pu.id, now⟩
      (.ok c, { s with comments := s.comments ++ [c] })

/-- The request-context builder of the source: no header yields the
anonymous context; with a token, a verification failure is caught and
yields the anonymous context; a verified userId that matches no stored
user also falls through to the anonymous context; otherwise the context
carries the sanitized user view.  Total by construction: no branch
raises. -/
def buildContext (us : List User) (auth : Option Token) (now : Nat) : Context :=
  match auth with
  | none => anonymousContext
  | some t =>
    match tokenVerify t theSecret now with
    | none => anonymousContext
    | some uid =>
      match findUserById us uid with
      | none => anonymousContext
      | some u => ⟨some (sanitize u)⟩

/-- The `Query.posts` resolver: all posts, unauthenticated. -/
def postsResolver (s : Store) : List Post := s.posts

/-- The `Query.me` resolver: the user view of the context, or none. -/
def meResolver (ctx : Context) : Option PublicUser := ctx.user

/-- The `Post.author` resolver: look the author up by id and sanitize. -/
def postAuthorResolver (s : Store) (p : Post) : Option PublicUser :=
  (findUserById s.users p.authorId).map sanitize

/-- The `Post.comments` resolver over the store. -/
def postCommentsResolver (s : Store) (p : Post) : List Comment :=
  commentsForPost s.comments p.id

/-- The `Post.commentCount` resolver over the store. -/
def postCommentCountResolver (s : Store) (p : Post) : Nat :=
  commentCountForPost s.comments p.id

/-- The `Comment.author` resolver: look the commenter up by id and
sanitize. -/
def commentAuthorResolver (s : Store) (c : Comment) : Option PublicUser :=
  (findUserById s.users c.userId).map sanitize

/-- Instrumented model of the execution engine running the `posts`
query with the nested selection of comments and their authors: for each
post in the list the engine re-invokes the `Post.comments` resolver
(one store access, the comments scan) and then, for each returned
comment, the `Comment.author` resolver (one store access each, the user
lookup).  Returns the resolved rows paired with the total number of
underlying store accesses. -/
def runPostsCommentsAuthors (us : List User) (cs : List Comment) :
    List Post → List (Post × List (Comment × Option PublicUser)) × Nat
  | [] => ([], 0)
  | p :: ps =>
    let here := commentsForPost cs p.id
    let rows := here.map (fun c => (c, (findUserById us c.userId).map sanitize))
    let rest := runPostsCommentsAuthors us cs ps
    ((p, rows) :: rest.1, (1 + here.length) + rest.2)

/-- The login resolver in explicit store-passing form: it only reads
the users array and leaves the store as it was. -/
def loginResolverStore (email password : String) (now : Nat) (s : Store) :
    Except String AuthPayload × Store :=
  (login s.users email password now, s)

/-- The `Query.posts` resolver in store-passing form (read-only). -/
def postsResolverStore (s : Store) : List Post × Store :=
  (postsResolver s, s)

/-- The `Query.me` resolver in store-passing form (reads nothing from
the store). -/
def meResolverStore (ctx : Context) (s : Store) : Option PublicUser × Store :=
  (meResolver ctx, s)

/-- The `Post.author` resolver in store-passing form (read-only). -/
def postAuthorResolverStore (p : Post) (s : Store) : Option PublicUser × Store :=
  (postAuthorResolver s p, s)

/-- The `Post.comments` resolver in store-passing form (read-only). -/
def postCommentsResolverStore (p : Post) (s : Store) : List Comment × Store :=
  (postCommentsResolver s p, s)

/-- The `Post.commentCount` resolver in store-passing form (read-only). -/
def postCommentCountResolverStore (p : Post) (s : Store) : Nat × Store :=
  (postCommentCountResolver s p, s)

/-- The `Comment.author` resolver in store-passing form (read-only). -/
def commentAuthorResolverStore (c : Comment) (s : Store) : Option PublicUser × Store :=
  (commentAuthorResolver s c, s)

/-- The `Comment.createdAt` resolver in store-passing form: returns the
stored timestamp (its ISO-8601 string rendering is presentation only
and not modelled) and leaves the store as it was. -/
def commentCreatedAtResolverStore (c : Comment) (s : Store) : Nat × Store :=
  (c.createdAt, s)

/-- The request-context builder in store-passing form (read-only). -/
def buildContextStore (auth : Option Token) (now : Nat) (s : Store) :
    Context × Store :=
  (buildContext s.users auth now, s)

/-- ASCII case folding of a string, character by character: used to
state that two email strings are equal up to letter case.  Defined
structurally over the character list so it evaluates by reduction. -/
def lowerCase (s : String) : String := ⟨s.data.map Char.toLower⟩

/-- A sample store for exercising theorems on concrete inputs: the
seeded users and posts with an empty comments array (the seeded
comments are randomized in the source, so the theorems quantify over
the comments array instead of fixing it). -/
def sampleStore : Store := ⟨seededUsers, seededPosts, []⟩

/-- C7: for every state of the comments store and every post, the
`Post.commentCount` resolver returns exactly the length of the sequence
returned by the `Post.comments` resolver for the same post, even though
the two run independent linear scans. -/
theorem commentCount_matches_comments_length (s : Store) (p : Post) :
    postCommentCountResolver s p = (postCommentsResolver s p).length := rfl

/-- C2: for every seeded user, login with the exactly-as-stored email
and the correct password succeeds, returning the sanitized user view
and a token signed over the user id with the static secret, and
verifying that token with the same secret at any instant before the
24-hour expiry yields the same user id. -/
theorem login_exact_email_succeeds_and_verifies (u : User) (hu : u ∈ seededUsers)
    (now t : Nat) (ht : t < now + 86400) :
    login seededUsers u.email u.password now =
      .ok ⟨tokenSign u.id theSecret now, sanitize u⟩ ∧
    tokenVerify (tokenSign u.id theSecret now) theSecret t = some u.id := by
  constructor
  · have hu' : u = ⟨1, "john@example.com", "password123", "John Doe"⟩ ∨
        u = ⟨2, "Jane@example.com", "password456", "Jane Smith"⟩ ∨
        u = ⟨3, "admin@company.com", "admin123", "Admin User"⟩ := by
      simpa [seededUsers] using hu
    rcases hu' with rfl | rfl | rfl <;> rfl
  · simp [tokenVerify, tokenSign, ht]

/-- Witness for C2 at the first seeded user, at issue instant 0 and
verification instant 5. -/
theorem login_exact_email_succeeds_and_verifies_witness :
    login seededUsers "john@example.com" "password123" 0 =
      .ok ⟨tokenSign 1 theSecret 0,
        sanitize ⟨1, "john@example.com", "password123", "John Doe"⟩⟩ ∧
    tokenVerify (tokenSign 1 theSecret 0) theSecret 5 = some 1 :=
  login_exact_email_succeeds_and_verifies
    ⟨1, "john@example.com", "password123", "John Doe"⟩ (by decide) 0 5 (by decide)

/-- C5: a token that fails verification for any reason always yields
the anonymous context from the context builder (which is total, so no
request is ever aborted); moreover an expired token, a token signed
with a different secret, and a malformed token all fail verification. -/
theorem context_anonymous_on_verify_failure (us : List User) (now : Nat) :
    (∀ t : Token, tokenVerify t theSecret now = none →
      buildContext us (some t) now = anonymousContext) ∧
    (∀ uid sec iat e, e ≤ now →
      tokenVerify (Token.signed uid sec iat e) theSecret now = none) ∧
    (∀ uid sec iat e, sec ≠ theSecret →
      tokenVerify (Token.signed uid sec iat e) theSecret now = none) ∧
    (∀ raw, tokenVerify (Token.malformed raw) theSecret now = none) := by
  refine ⟨?_, ?_, ?_, fun _ => rfl⟩
  · intro t h
    simp [buildContext, h]
  · intro uid sec iat e he
    have hc : ¬(sec = theSecret ∧ now < e) := fun hc => absurd hc.2 (by omega)
    simp [tokenVerify, hc]
  · intro uid sec iat e hs
    have hc : ¬(sec = theSecret ∧ now < e) := fun hc => absurd hc.1 hs
    simp [tokenVerify, hc]

/-- Witness for C5: a malformed token yields the anonymous context, an
expired token, a wrong-secret token and a malformed token each fail
verification, at concrete instants. -/
theorem context_anonymous_on_verify_failure_witness :
    buildContext seededUsers (some (Token.malformed "garbage")) 0 = anonymousContext ∧
    tokenVerify (Token.signed 1 theSecret 0 10) theSecret 10 = none ∧
    tokenVerify (Token.signed 1 "other-secret" 0 86400) theSecret 0 = none ∧
    tokenVerify (Token.malformed "garbage") theSecret 0 = none :=
  ⟨(context_anonymous_on_verify_failure seededUsers 0).1 (Token.malformed "garbage") rfl,
   (context_anonymous_on_verify_failure seededUsers 10).2.1 1 theSecret 0 10 (by decide),
   (context_anonymous_on_verify_failure seededUsers 0).2.2.1 1 "other-secret" 0 86400 (by decide),
   (context_anonymous_on_verify_failure seededUsers 0).2.2.2 "garbage"⟩

/-- Counterexample to C6 as stated: a token signed with the right
secret over userId 999 verifies successfully, yet the context builder
over the seeded users returns the anonymous context (no user view),
because no stored user has id 999. -/
theorem context_verified_token_unknown_user_counterexample :
    tokenVerify (Token.signed 999 theSecret 0 86400) theSecret 0 = some 999 ∧
    buildContext seededUsers (some (Token.signed 999 theSecret 0 86400)) 0 =
      anonymousContext := by
  constructor <;> decide

/-- C6 amended: whenever the presented token verifies successfully AND
the userId of its payload matches a stored user, the context builder
produces the context carrying the sanitized view of that user. -/
theorem context_carries_verified_user (us : List User) (t : Token)
    (now uid : Nat) (u : User)
    (hv : tokenVerify t theSecret now = some uid)
    (hf : findUserById us uid = some u) :
    buildContext us (some t) now = ⟨some (sanitize u)⟩ := by
  simp [buildContext, hv, hf]

/-- Witness for the amended C6 at a concrete token for seeded user 1. -/
theorem context_carries_verified_user_witness :
    buildContext seededUsers (some (Token.signed 1 theSecret 0 86400)) 0 =
      ⟨some (sanitize ⟨1, "john@example.com", "password123", "John Doe"⟩)⟩ :=
  context_carries_verified_user seededUsers (Token.signed 1 theSecret 0 86400) 0 1
    ⟨1, "john@example.com", "password123", "John Doe"⟩ (by decide) (by decide)

/-- C1: for every seeded user, login with an email equal to the stored
one only up to letter case (differing somewhere) and the correct
password fails with the invalid-credentials error, while the
stored-casing email with the correct password finds the user — the
credentials lookup compares emails by exact case-sensitive equality. -/
theorem login_email_case_sensitive (u : User) (hu : u ∈ seededUsers)
    (e : String) (hlow : lowerCase e = lowerCase u.email) (hne : e ≠ u.email)
    (now : Nat) :
    login seededUsers e u.password now = .error "Invalid email or password" ∧
    login seededUsers u.email u.password now =
      .ok ⟨tokenSign u.id theSecret now, sanitize u⟩ := by
  have hu' : u = ⟨1, "john@example.com", "password123", "John Doe"⟩ ∨
      u = ⟨2, "Jane@example.com", "password456", "Jane Smith"⟩ ∨
      u = ⟨3, "admin@company.com", "admin123", "Admin User"⟩ := by
    simpa [seededUsers] using hu
  have hnone : findUserByCredentials seededUsers e u.password = none := by
    rw [findUserByCredentials, List.find?_eq_none]
    intro a ha
    simp only [Bool.and_eq_true, beq_iff_eq, not_and]
    intro hae hap
    have ha' : a = ⟨1, "john@example.com", "password123", "John Doe"⟩ ∨
        a = ⟨2, "Jane@example.com", "password456", "Jane Smith"⟩ ∨
        a = ⟨3, "admin@company.com", "admin123", "Admin User"⟩ := by
      simpa [seededUsers] using ha
    rcases hu' with rfl | rfl | rfl <;> rcases ha' with rfl | rfl | rfl <;>
      simp_all
  constructor
  · rw [login, hnone]
  · rcases hu' with rfl | rfl | rfl <;> rfl

/-- Witness for C1 at the second seeded user, whose stored email is
`Jane@example.com`: the all-lowercase variant with the correct password
fails, the stored casing succeeds. -/
theorem login_email_case_sensitive_witness :
    login seededUsers "jane@example.com" "password456" 0 =
      .error "Invalid email or password" ∧
    login seededUsers "Jane@example.com" "password456" 0 =
      .ok ⟨tokenSign 2 theSecret 0,
        sanitize ⟨2, "Jane@example.com", "password456", "Jane Smith"⟩⟩ :=
  login_email_case_sensitive ⟨2, "Jane@example.com", "password456", "Jane Smith"⟩
    (by decide) "jane@example.com" (by decide) (by decide) 0

/-- C3: for every store, postId, text and instant, `addComment` on an
anonymous context always fails (leaving the store as it was), and on an
authenticated context with non-empty text it appends exactly one new
comment whose userId is the id of the context user — the mutation API
accepts no caller-supplied author at all. -/
theorem addComment_auth_gate_and_author_from_context (s : Store)
    (postId : Nat) (text : String) (now : Nat) :
    (∀ ctx : Context, ctx.user = none →
      addComment ctx postId text now s = (.error "Error adding comment", s)) ∧
    (∀ (ctx : Context) (pu : PublicUser), ctx.user = some pu → text ≠ "" →
      ∃ c : Comment,
        addComment ctx postId text now s =
          (.ok c, { s with comments := s.comments ++ [c] }) ∧
        c.userId = pu.id) := by
  constructor
  · intro ctx h
    simp [addComment, h]
  · intro ctx pu h ht
    exact ⟨⟨s.comments.length + 1, text, postId, pu.id, now⟩,
      by simp [addComment, h, ht], rfl⟩

/-- Witness for C3 on the sample store: the anonymous call fails and a
call authenticated as user 1 appends one comment authored by user 1. -/
theorem addComment_auth_gate_witness :
    addComment anonymousContext 1 "hi" 0 sampleStore =
      (.error "Error adding comment", sampleStore) ∧
    ∃ c : Comment,
      addComment ⟨some ⟨1, "john@example.com", "John Doe"⟩⟩ 1 "hi" 0 sampleStore =
        (.ok c, { sampleStore with comments := sampleStore.comments ++ [c] }) ∧
      c.userId = 1 :=
  ⟨(addComment_auth_gate_and_author_from_context sampleStore 1 "hi" 0).1
      anonymousContext rfl,
   (addComment_auth_gate_and_author_from_context sampleStore 1 "hi" 0).2
      ⟨some ⟨1, "john@example.com", "John Doe"⟩⟩
      ⟨1, "john@example.com", "John Doe"⟩ rfl (by decide)⟩

/-- C4: on an authenticated context, `addComment` with the empty string
as text fails with the text-required error and leaves the store as it
was, while a single-space text is accepted and creates a comment — the
check rejects exactly the empty string and performs no trimming. -/
theorem addComment_empty_rejected_whitespace_accepted (s : Store)
    (ctx : Context) (pu : PublicUser) (h : ctx.user = some pu)
    (postId now : Nat) :
    addComment ctx postId "" now s = (.error "Comment text is required", s) ∧
    ∃ c : Comment,
      addComment ctx postId " " now s =
        (.ok c, { s with comments := s.comments ++ [c] }) ∧
      c.text = " " := by
  constructor
  · simp [addComment, h]
  · exact ⟨⟨s.comments.length + 1, " ", postId, pu.id, now⟩,
      by simp [addComment, h], rfl⟩

/-- Witness for C4 on the sample store, authenticated as user 1. -/
theorem addComment_empty_rejected_whitespace_accepted_witness :
    addComment ⟨some ⟨1, "john@example.com", "John Doe"⟩⟩ 1 "" 0 sampleStore =
      (.error "Comment text is required", sampleStore) ∧
    ∃ c : Comment,
      addComment ⟨some ⟨1, "john@example.com", "John Doe"⟩⟩ 1 " " 0 sampleStore =
        (.ok c, { sampleStore with comments := sampleStore.comments ++ [c] }) ∧
      c.text = " " :=
  addComment_empty_rejected_whitespace_accepted sampleStore
    ⟨some ⟨1, "john@example.com", "John Doe"⟩⟩
    ⟨1, "john@example.com", "John Doe"⟩ rfl 1 0

/-- C8: `addComment` checks nothing about postId: on an authenticated
context with non-empty text it succeeds and appends the comment even
when no post in the store has that id, so the resulting store holds an
orphaned comment (its postId matches no post), reached through the
public mutation alone. -/
theorem addComment_no_post_check_orphan_reachable (s : Store) (ctx : Context)
    (pu : PublicUser) (h : ctx.user = some pu) (postId : Nat)
    (hp : ∀ p ∈ s.posts, p.id ≠ postId) (text : String) (ht : text ≠ "")
    (now : Nat) :
    ∃ c : Comment,
      addComment ctx postId text now s =
        (.ok c, { s with comments := s.comments ++ [c] }) ∧
      c.postId = postId ∧
      c ∈ (addComment ctx postId text now s).2.comments ∧
      ∀ p ∈ (addComment ctx postId text now s).2.posts, p.id ≠ c.postId := by
  refine ⟨⟨s.comments.length + 1, text, postId, pu.id, now⟩,
    by simp [addComment, h, ht], rfl, ?_, ?_⟩
  · simp [addComment, h, ht]
  · intro p hmem
    simp only [addComment, h] at hmem
    rw [if_neg ht] at hmem
    exact hp p hmem

/-- Witness for C8 on the sample store: postId 999 names no seeded
post, yet the authenticated call succeeds and the new comment is an
orphan. -/
theorem addComment_no_post_check_orphan_witness :
    ∃ c : Comment,
      addComment ⟨some ⟨1, "john@example.com", "John Doe"⟩⟩ 999 "hi" 0 sampleStore =
        (.ok c, { sampleStore with comments := sampleStore.comments ++ [c] }) ∧
      c.postId = 999 ∧
      c ∈ (addComment ⟨some ⟨1, "john@example.com", "John Doe"⟩⟩ 999 "hi" 0
            sampleStore).2.comments ∧
      ∀ p ∈ (addComment ⟨some ⟨1, "john@example.com", "John Doe"⟩⟩ 999 "hi" 0
            sampleStore).2.posts, p.id ≠ c.postId :=
  addComment_no_post_check_orphan_reachable sampleStore
    ⟨some ⟨1, "john@example.com", "John Doe"⟩⟩
    ⟨1, "john@example.com", "John Doe"⟩ rfl 999 (by decide) "hi" (by decide) 0

/-- C9: running the `posts` query with the nested selection of comments
and their authors over a list of N posts, each owning M comments,
performs at least N + N·M underlying store accesses: the execution
engine re-invokes the `Post.comments` scan once per post and the
`Comment.author` lookup once per returned comment. -/
theorem nested_query_access_count (us : List User) (cs : List Comment)
    (ps : List Post) (M : Nat)
    (hM : ∀ p ∈ ps, (commentsForPost cs p.id).length = M) :
    ps.length + ps.length * M ≤ (runPostsCommentsAuthors us cs ps).2 := by
  induction ps with
  | nil => simp [runPostsCommentsAuthors]
  | cons p ps ih =>
    have hp : (commentsForPost cs p.id).length = M := hM p (by simp)
    have ih' := ih fun q hq => hM q (List.mem_cons_of_mem _ hq)
    have hrun : (runPostsCommentsAuthors us cs (p :: ps)).2 =
        (1 + (commentsForPost cs p.id).length) +
          (runPostsCommentsAuthors us cs ps).2 := rfl
    rw [hrun, hp, List.length_cons]
    calc (ps.length + 1) + (ps.length + 1) * M
        = (1 + M) + (ps.length + ps.length * M) := by ring
      _ ≤ (1 + M) + (runPostsCommentsAuthors us cs ps).2 :=
        Nat.add_le_add_left ih' _

/-- Witness for C9 with two posts owning one comment each: at least
2 + 2·1 = 4 store accesses. -/
theorem nested_query_access_count_witness :
    2 + 2 * 1 ≤ (runPostsCommentsAuthors seededUsers
      [⟨1, "a", 1, 1, 0⟩, ⟨2, "b", 2, 1, 0⟩]
      [⟨1, "t1", "c1", 1⟩, ⟨2, "t2", "c2", 2⟩]).2 :=
  nested_query_access_count seededUsers
    [⟨1, "a", 1, 1, 0⟩, ⟨2, "b", 2, 1, 0⟩]
    [⟨1, "t1", "c1", 1⟩, ⟨2, "t2", "c2", 2⟩] 1 (by decide)

/-- C10: every failing `addComment` call returns exactly the store it
was given (it throws before pushing), and every other operation of the
resolver layer — login, posts, me, the post and comment field
resolvers, and the context builder — returns its store unchanged, so
only a successful `addComment` ever mutates the users, posts or
comments collections. -/
theorem store_mutated_only_by_successful_addComment (s : Store)
    (ctx : Context) (postId : Nat) (text : String) (now : Nat)
    (email password : String) (auth : Option Token) (p : Post) (c : Comment) :
    (∀ msg s', addComment ctx postId text now s = (.error msg, s') → s' = s) ∧
    (loginResolverStore email password now s).2 = s ∧
    (postsResolverStore s).2 = s ∧
    (meResolverStore ctx s).2 = s ∧
    (postAuthorResolverStore p s).2 = s ∧
    (postCommentsResolverStore p s).2 = s ∧
    (postCommentCountResolverStore p s).2 = s ∧
    (commentAuthorResolverStore c s).2 = s ∧
    (commentCreatedAtResolverStore c s).2 = s ∧
    (buildContextStore auth now s).2 = s := by
  refine ⟨?_, rfl, rfl, rfl, rfl, rfl, rfl, rfl, rfl, rfl⟩
  intro msg s' h
  rcases hctx : ctx.user with _ | pu
  · simp only [addComment, hctx] at h
    exact (congrArg Prod.snd h).symm
  · simp only [addComment, hctx] at h
    split at h
    · exact (congrArg Prod.snd h).symm
    · exact Except.noConfusion (congrArg Prod.fst h)

/-- Witness for C10: the failing anonymous `addComment` call on the
sample store leaves it untouched, and the context builder leaves it
untouched. -/
theorem store_mutated_only_by_successful_addComment_witness :
    (addComment anonymousContext 1 "hi" 0 sampleStore).2 = sampleStore ∧
    (buildContextStore none 0 sampleStore).2 = sampleStore :=
  ⟨(store_mutated_only_by_successful_addComment sampleStore anonymousContext
      1 "hi" 0 "a" "b" none ⟨1, "t", "c", 1⟩ ⟨1, "x", 1, 1, 0⟩).1
      "Error adding comment" (addComment anonymousContext 1 "hi" 0 sampleStore).2 rfl,
   (store_mutated_only_by_successful_addComment sampleStore anonymousContext
      1 "hi" 0 "a" "b" none ⟨1, "t", "c", 1⟩ ⟨1, "x", 1, 1, 0⟩).2.2.2.2.2.2.2.2.2⟩

end Citronella
